import Mathlib

/-!
Verification of the brainstorm-board application (`src/app.py`).

The app is a single-file reactive UI over a session record
(topic, ideas, liked_ideas, removed_ideas, current_round) with one
external generation call.  We embed:

* the response parser and `generate_ideas` (app.py lines 31-83),
  with the external service modelled by an oracle argument
  (`none` = the call raised; `some t` = the call returned text `t`);
* `reset_session_state` (lines 19-29);
* the module-level button handlers as state-transition functions
  (initial generation 141-152, like 174-176, remove 178-180,
  regenerate 185-196, remove-from-liked 207-209).

Strings are modelled as `List Char`; Python sets as `Finset (List Char)`.
-/

namespace BrainstormBoard

/-- Characters removed by Python `str.strip()` (ASCII whitespace suffices
for the texts handled here). -/
def isWs (c : Char) : Bool := c.isWhitespace

/-- Drop leading whitespace, as Python `str.lstrip()`. -/
def lstrip (l : List Char) : List Char := l.dropWhile isWs

/-- Drop trailing whitespace, as Python `str.rstrip()`. -/
def rstrip (l : List Char) : List Char := (l.reverse.dropWhile isWs).reverse

/-- Python `line.strip()`. -/
def pyStrip (l : List Char) : List Char := rstrip (lstrip l)

/-- Python `'. ' in idea`: does the two-character sequence ". " occur? -/
def containsDotSpace : List Char → Bool
  | [] => false
  | [_] => false
  | c1 :: c2 :: r => (c1 = '.' && c2 = ' ') || containsDotSpace (c2 :: r)

/-- Everything after the first occurrence of ". ":
models `idea.split('. ', 1)[1]` (only used under a `containsDotSpace` guard,
mirroring the `if '. ' in idea` guard in the source). -/
def splitTailDotSpace : List Char → List Char
  | [] => []
  | [_] => []
  | c1 :: c2 :: r => if c1 = '.' && c2 = ' ' then r else splitTailDotSpace (c2 :: r)

/-- Python `idea.split('. ', 1)[1] if '. ' in idea else idea` (app.py line 74). -/
def stripNumber (idea : List Char) : List Char :=
  if containsDotSpace idea then splitTailDotSpace idea else idea

/-- Python `any(c.isdigit() for c in idea[:2])` (app.py line 74). -/
def digitIn2 (idea : List Char) : Bool := (idea.take 2).any Char.isDigit

/-- The response parser, app.py lines 71-74:
`ideas = [line.strip() for line in response.text.split('\n') if line.strip()]`
then
`ideas = [idea.split('. ', 1)[1] if '. ' in idea else idea for idea in ideas if any(c.isdigit() for c in idea[:2])]`. -/
def parseIdeas (text : List Char) : List (List Char) :=
  let ideas := ((text.splitOn '\n').map pyStrip).filter (fun l => !l.isEmpty)
  (ideas.filter digitIn2).map stripNumber

/-- Observable outcome of one `generate_ideas` call: the returned list plus
whether `st.warning` fired, whether `st.error` fired, and whether the
external service call was reached. -/
structure GenResult where
  ideas : List (List Char)
  warned : Bool
  errored : Bool
  serviceCalled : Bool
deriving DecidableEq

/-- `generate_ideas` (app.py lines 31-83).  The external service is an
oracle: `response = none` models `model.generate_content` raising, and
`response = some t` models it returning text `t` (empty `t` is the falsy
`response.text`).  `liked_ideas`, `removed_ideas` and `round_num` only
shape the prompt sent to the service, so they do not affect the result
for a fixed oracle response. -/
def generate_ideas (topic : List Char) (liked_ideas removed_ideas : Finset (List Char))
    (round_num : Nat) (response : Option (List Char)) : GenResult :=
  if pyStrip topic = [] then
    { ideas := [], warned := true, errored := false, serviceCalled := false }
  else
    match response with
    | none => { ideas := [], warned := false, errored := true, serviceCalled := true }
    | some text =>
      if text = [] then
        { ideas := [], warned := false, errored := true, serviceCalled := true }
      else
        let ideas := parseIdeas text
        if ideas = [] then
          { ideas := [], warned := false, errored := true, serviceCalled := true }
        else
          { ideas := ideas.take 5, warned := false, errored := false, serviceCalled := true }

/-- The session record held in `st.session_state` (app.py lines 94-103). -/
structure SessionState where
  topic : List Char
  ideas : List (List Char)
  liked_ideas : Finset (List Char)
  removed_ideas : Finset (List Char)
  current_round : Nat
deriving DecidableEq

/-- The defaults installed at session start (app.py lines 94-103) and by reset. -/
def initialState : SessionState :=
  { topic := [], ideas := [], liked_ideas := ∅, removed_ideas := ∅, current_round := 1 }

/-- `reset_session_state` (app.py lines 19-29): the key-deletion loop followed
by reinstalling the defaults; its net effect on the record is the defaults. -/
def reset_session_state (_s : SessionState) : SessionState := initialState

/-- Initial generation handler (app.py lines 141-152).  It only runs when
`generate_clicked and topic` holds, i.e. when the submitted input is a
non-empty raw string; inside, it sets `topic` first, then `ideas`, then
increments the round only when the new ideas list is non-empty. -/
def generateHandler (inputTopic : List Char) (response : Option (List Char))
    (s : SessionState) : SessionState :=
  if inputTopic = [] then s
  else
    let newIdeas :=
      (generate_ideas inputTopic s.liked_ideas s.removed_ideas s.current_round response).ideas
    { s with topic := inputTopic, ideas := newIdeas,
             current_round :=
               if newIdeas = [] then s.current_round else s.current_round + 1 }

/-- Regenerate handler (app.py lines 185-196): replaces `ideas` and bumps the
round only when the new list is non-empty. -/
def regenerateHandler (response : Option (List Char)) (s : SessionState) : SessionState :=
  let newIdeas :=
    (generate_ideas s.topic s.liked_ideas s.removed_ideas s.current_round response).ideas
  if newIdeas = [] then s
  else { s with ideas := newIdeas, current_round := s.current_round + 1 }

/-- Like handler (app.py lines 174-176): `st.session_state.liked_ideas.add(idea)`. -/
def likeHandler (idea : List Char) (s : SessionState) : SessionState :=
  { s with liked_ideas := insert idea s.liked_ideas }

/-- Remove handler (app.py lines 178-180): `st.session_state.removed_ideas.add(idea)`. -/
def removeHandler (idea : List Char) (s : SessionState) : SessionState :=
  { s with removed_ideas := insert idea s.removed_ideas }

/-- Remove-from-liked handler (app.py lines 207-209):
`st.session_state.liked_ideas.remove(idea)` (only rendered for members). -/
def removeLikedHandler (idea : List Char) (s : SessionState) : SessionState :=
  { s with liked_ideas := s.liked_ideas.erase idea }

/-- Modelled from the claim wording (spec parsing policy): the tail after a
leading "N. " numbered marker — one or more digits followed by ". " at the
very start of the line — or `none` when the line does not start with one. -/
def leadingMarkerTail (l : List Char) : Option (List Char) :=
  let ds := l.takeWhile Char.isDigit
  let rest := l.drop ds.length
  if ds ≠ [] ∧ rest.take 2 = ['.', ' '] then some (rest.drop 2) else none

/-- Modelled from the claim wording (spec parsing policy): split into lines,
drop blank lines, keep a line only if one of its first two characters is a
digit, strip a leading "N. " marker if present, otherwise keep the line
as-is. -/
def specParseIdeas (text : List Char) : List (List Char) :=
  let lines := (text.splitOn '\n').filter (fun l => !(pyStrip l).isEmpty)
  (lines.filter digitIn2).map (fun l => (leadingMarkerTail l).getD l)

/-- First-occurrence split used to phrase the amended parsing policy:
everything after the first ". " anywhere in the line, if ". " occurs. -/
def afterDotSpace : List Char → Option (List Char)
  | [] => none
  | [_] => none
  | c1 :: c2 :: r => if c1 = '.' && c2 = ' ' then some r else afterDotSpace (c2 :: r)

/-- The amended parsing policy: lines are whitespace-stripped, blank lines
dropped, a line kept only if one of its first two (post-strip) characters is
a digit, and a kept line is replaced by everything after the first
occurrence of ". " anywhere in it when ". " occurs, otherwise kept as-is. -/
def amendedParseIdeas (text : List Char) : List (List Char) :=
  let lines := ((text.splitOn '\n').map pyStrip).filter (fun l => !l.isEmpty)
  (lines.filter digitIn2).map (fun l => (afterDotSpace l).getD l)

/-! ### Parser lemmas -/

theorem afterDotSpace_eq : ∀ l : List Char,
    afterDotSpace l = if containsDotSpace l then some (splitTailDotSpace l) else none
  | [] => by simp [afterDotSpace, containsDotSpace]
  | [c] => by simp [afterDotSpace, containsDotSpace]
  | c1 :: c2 :: r => by
      by_cases hd : c1 = '.' && c2 = ' '
      · simp [afterDotSpace, containsDotSpace, splitTailDotSpace, hd]
      · simp [afterDotSpace, containsDotSpace, splitTailDotSpace, hd,
          afterDotSpace_eq (c2 :: r)]

theorem stripNumber_eq_afterDotSpace (l : List Char) :
    stripNumber l = (afterDotSpace l).getD l := by
  cases hc : containsDotSpace l <;> simp [stripNumber, afterDotSpace_eq, hc]

theorem isWs_head_dropWhile {m : List Char} {c : Char} {r : List Char}
    (h : m.dropWhile isWs = c :: r) : isWs c = false := by
  have w : m.dropWhile isWs ≠ [] := by simp [h]
  have hh := List.head_dropWhile_not isWs m w
  rwa [show (m.dropWhile isWs).head w = c from by simp [h]] at hh

theorem isWs_getLast_pyStrip {l : List Char} {c : Char}
    (h : (pyStrip l).getLast? = some c) : isWs c = false := by
  unfold pyStrip rstrip at h
  rw [List.getLast?_reverse] at h
  cases hd : (lstrip l).reverse.dropWhile isWs with
  | nil => rw [hd] at h; simp at h
  | cons a t =>
      rw [hd] at h
      simp only [List.head?_cons, Option.some.injEq] at h
      subst h
      exact isWs_head_dropWhile hd

theorem splitTailDotSpace_ne_nil : ∀ l : List Char, l.getLast? ≠ some ' ' →
    containsDotSpace l = true → splitTailDotSpace l ≠ []
  | [], _, hc => by simp [containsDotSpace] at hc
  | [c], _, hc => by simp [containsDotSpace] at hc
  | c1 :: c2 :: r, hl, hc => by
      by_cases hd : c1 = '.' && c2 = ' '
      · simp only [splitTailDotSpace, hd, if_true]
        intro hr
        subst hr
        simp only [Bool.and_eq_true, decide_eq_true_eq] at hd
        exact hl (by simp [hd.2])
      · have hc2 : containsDotSpace (c2 :: r) = true := by
          simpa [containsDotSpace, hd] using hc
        have hl2 : (c2 :: r).getLast? ≠ some ' ' := by
          rwa [List.getLast?_cons_cons] at hl
        simpa [splitTailDotSpace, hd] using splitTailDotSpace_ne_nil (c2 :: r) hl2 hc2

theorem stripNumber_ne_nil {l : List Char} (hne : l ≠ [])
    (hl : l.getLast? ≠ some ' ') : stripNumber l ≠ [] := by
  cases hc : containsDotSpace l
  · simpa [stripNumber, hc] using hne
  · simpa [stripNumber, hc] using splitTailDotSpace_ne_nil l hl hc

theorem mem_parseIdeas_ne_nil {text idea : List Char}
    (h : idea ∈ parseIdeas text) : idea ≠ [] := by
  unfold parseIdeas at h
  simp only [List.mem_map, List.mem_filter] at h
  obtain ⟨l, ⟨⟨hmem, hne'⟩, _hdig⟩, rfl⟩ := h
  obtain ⟨l0, _, rfl⟩ := hmem
  have hne : pyStrip l0 ≠ [] := by simpa using hne'
  obtain ⟨c, hc⟩ : ∃ c, (pyStrip l0).getLast? = some c := by
    cases hgl : (pyStrip l0).getLast? with
    | none => exact absurd (List.getLast?_eq_none_iff.mp hgl) hne
    | some c => exact ⟨c, rfl⟩
  have hws := isWs_getLast_pyStrip hc
  have hcs : c ≠ ' ' := by
    intro e
    subst e
    exact absurd hws (by decide)
  exact stripNumber_ne_nil hne (by rw [hc]; simpa using hcs)

/-! ### Round-counter helper lemmas -/

theorem generateHandler_round_pos (s : SessionState) (input : List Char)
    (resp : Option (List Char)) (hi : input ≠ [])
    (h : (generate_ideas input s.liked_ideas s.removed_ideas s.current_round resp).ideas ≠ []) :
    (generateHandler input resp s).current_round = s.current_round + 1 := by
  simp [generateHandler, hi, h]

theorem generateHandler_round_zero (s : SessionState) (input : List Char)
    (resp : Option (List Char))
    (h : (generate_ideas input s.liked_ideas s.removed_ideas s.current_round resp).ideas = []) :
    (generateHandler input resp s).current_round = s.current_round := by
  by_cases hi : input = [] <;> simp [generateHandler, hi, h]

theorem regenerateHandler_round_pos (s : SessionState) (resp : Option (List Char))
    (h : (generate_ideas s.topic s.liked_ideas s.removed_ideas s.current_round resp).ideas ≠ []) :
    (regenerateHandler resp s).current_round = s.current_round + 1 := by
  simp [regenerateHandler, h]

theorem regenerateHandler_round_zero (s : SessionState) (resp : Option (List Char))
    (h : (generate_ideas s.topic s.liked_ideas s.removed_ideas s.current_round resp).ideas = []) :
    (regenerateHandler resp s).current_round = s.current_round := by
  simp [regenerateHandler, h]

/-! ### Claim theorems -/

/-- Claim C1, counterexample: the claimed parsing policy ("strip a leading
"N. " marker if present, otherwise keep the line as-is") disagrees with the
code on the single-line response "1x foo. bar": the code splits at the first
". " anywhere in the line and returns "bar", while the claimed policy keeps
the whole line. -/
theorem parse_policy_counterexample :
    (generate_ideas (String.toList "t") ∅ ∅ 1 (some (String.toList "1x foo. bar"))).ideas ≠
      specParseIdeas (String.toList "1x foo. bar") ∧
    (generate_ideas (String.toList "t") ∅ ∅ 1 (some (String.toList "1x foo. bar"))).ideas =
      [String.toList "bar"] ∧
    specParseIdeas (String.toList "1x foo. bar") = [String.toList "1x foo. bar"] := by
  decide

/-- Claim C1, as amended: the parser inside `generate_ideas` strips each
line of surrounding whitespace, drops blank lines, keeps a line only if one
of its first two (post-strip) characters is a digit, and for each kept line
drops everything up to and including the first occurrence of ". " anywhere
in the line when ". " occurs, otherwise keeps the (stripped) line as-is. -/
theorem parse_policy_amended (text : List Char) : parseIdeas text = amendedParseIdeas text := by
  unfold parseIdeas amendedParseIdeas
  exact List.map_congr_left (fun l _ => stripNumber_eq_afterDotSpace l)

/-- Claim C2: the round counter increments by exactly one on every
generation (initial or regeneration) whose result is non-empty and is
unchanged on every generation whose result is empty; in particular, from
`current_round = 1`, a successful initial generation yields round 2, a
following failed regeneration leaves it at 2, and a following successful
regeneration yields 3. -/
theorem round_counter_increments :
    (∀ (s : SessionState) (input : List Char) (resp : Option (List Char)),
      input ≠ [] →
      (generate_ideas input s.liked_ideas s.removed_ideas s.current_round resp).ideas ≠ [] →
      (generateHandler input resp s).current_round = s.current_round + 1) ∧
    (∀ (s : SessionState) (input : List Char) (resp : Option (List Char)),
      (generate_ideas input s.liked_ideas s.removed_ideas s.current_round resp).ideas = [] →
      (generateHandler input resp s).current_round = s.current_round) ∧
    (∀ (s : SessionState) (resp : Option (List Char)),
      (generate_ideas s.topic s.liked_ideas s.removed_ideas s.current_round resp).ideas ≠ [] →
      (regenerateHandler resp s).current_round = s.current_round + 1) ∧
    (∀ (s : SessionState) (resp : Option (List Char)),
      (generate_ideas s.topic s.liked_ideas s.removed_ideas s.current_round resp).ideas = [] →
      (regenerateHandler resp s).current_round = s.current_round) ∧
    (∀ (s : SessionState) (input : List Char) (r1 r2 r3 : Option (List Char)),
      s.current_round = 1 →
      input ≠ [] →
      (generate_ideas input s.liked_ideas s.removed_ideas s.current_round r1).ideas ≠ [] →
      (generate_ideas (generateHandler input r1 s).topic
        (generateHandler input r1 s).liked_ideas
        (generateHandler input r1 s).removed_ideas
        (generateHandler input r1 s).current_round r2).ideas = [] →
      (generate_ideas (regenerateHandler r2 (generateHandler input r1 s)).topic
        (regenerateHandler r2 (generateHandler input r1 s)).liked_ideas
        (regenerateHandler r2 (generateHandler input r1 s)).removed_ideas
        (regenerateHandler r2 (generateHandler input r1 s)).current_round r3).ideas ≠ [] →
      (generateHandler input r1 s).current_round = 2 ∧
      (regenerateHandler r2 (generateHandler input r1 s)).current_round = 2 ∧
      (regenerateHandler r3
        (regenerateHandler r2 (generateHandler input r1 s))).current_round = 3) := by
  refine ⟨generateHandler_round_pos, generateHandler_round_zero,
    regenerateHandler_round_pos, regenerateHandler_round_zero, ?_⟩
  intro s input r1 r2 r3 hr hi h1 h2 h3
  have e1 : (generateHandler input r1 s).current_round = 2 := by
    rw [generateHandler_round_pos s input r1 hi h1, hr]
  have e2 : (regenerateHandler r2 (generateHandler input r1 s)).current_round = 2 := by
    rw [regenerateHandler_round_zero _ r2 h2, e1]
  have e3 : (regenerateHandler r3
      (regenerateHandler r2 (generateHandler input r1 s))).current_round = 3 := by
    rw [regenerateHandler_round_pos _ r3 h3, e2]
  exact ⟨e1, e2, e3⟩

/-- Witness for C2: from the reset state, generating on topic "t" with
response "1. a" reaches round 2, a failed regeneration (empty response
text) keeps round 2, and a regeneration with response "2. b" reaches 3. -/
theorem round_counter_increments_witness :
    (generateHandler (String.toList "t") (some (String.toList "1. a"))
      initialState).current_round = 2 ∧
    (regenerateHandler (some [])
      (generateHandler (String.toList "t") (some (String.toList "1. a"))
        initialState)).current_round = 2 ∧
    (regenerateHandler (some (String.toList "2. b"))
      (regenerateHandler (some [])
        (generateHandler (String.toList "t") (some (String.toList "1. a"))
          initialState))).current_round = 3 :=
  round_counter_increments.2.2.2.2 initialState (String.toList "t")
    (some (String.toList "1. a")) (some []) (some (String.toList "2. b"))
    rfl (by decide) (by decide) (by decide) (by decide)

/-- Claim C3, counterexample: submitting the whitespace-only topic " "
(non-empty as a raw string, so the handler's `generate_clicked and topic`
guard passes) makes `generate_ideas` return an empty result, yet the
handler has already overwritten `st.session_state.topic` with " " — the
topic field does not keep its prior value "". -/
theorem generate_failure_counterexample :
    (generate_ideas (String.toList " ") initialState.liked_ideas
      initialState.removed_ideas initialState.current_round none).ideas = [] ∧
    (generateHandler (String.toList " ") none initialState).topic ≠ initialState.topic := by
  decide

/-- Claim C3, as amended: when the generate action fires with a raw-empty
input the handler does not run and nothing changes; when it fires with a
non-empty input (including whitespace-only) and the generator returns an
empty result, `liked_ideas`, `removed_ideas` and `current_round` keep their
prior values and `ideas` is set to the empty list, but `topic` is
overwritten with the submitted input before the result is checked — so the
controller does not remain in the awaiting-input view, which renders only
while the stored topic is empty. -/
theorem generate_failure_amended (s : SessionState) (input : List Char)
    (resp : Option (List Char)) :
    (input = [] → generateHandler input resp s = s) ∧
    (input ≠ [] →
      (generate_ideas input s.liked_ideas s.removed_ideas s.current_round resp).ideas = [] →
      generateHandler input resp s = { s with topic := input, ideas := [] }) := by
  constructor
  · intro hi
    simp [generateHandler, hi]
  · intro hi he
    simp [generateHandler, hi, he]

/-- Witness for the amended C3 at the reset state with input " " and a
raised service call. -/
theorem generate_failure_amended_witness :
    generateHandler (String.toList " ") none initialState =
      { initialState with topic := String.toList " ", ideas := [] } :=
  (generate_failure_amended initialState (String.toList " ") none).2
    (by decide) (by decide)

/-- Claim C4: a regeneration whose result is empty is a no-op on the whole
session state (previous ideas and round kept); a regeneration whose result
is non-empty fully replaces `ideas` with the new list and increments the
round, leaving the other fields unchanged. -/
theorem regenerate_effects (s : SessionState) (resp : Option (List Char)) :
    ((generate_ideas s.topic s.liked_ideas s.removed_ideas s.current_round resp).ideas = [] →
      regenerateHandler resp s = s) ∧
    ((generate_ideas s.topic s.liked_ideas s.removed_ideas s.current_round resp).ideas ≠ [] →
      regenerateHandler resp s =
        { s with
            ideas :=
              (generate_ideas s.topic s.liked_ideas s.removed_ideas
                s.current_round resp).ideas,
            current_round := s.current_round + 1 }) := by
  constructor <;> intro h <;> simp [regenerateHandler, h]

/-- Witness for C4: from a state with topic "t", a failed regeneration is a
no-op and a successful one replaces the ideas and bumps the round. -/
theorem regenerate_effects_witness :
    regenerateHandler (some []) { initialState with topic := String.toList "t" } =
      { initialState with topic := String.toList "t" } ∧
    regenerateHandler (some (String.toList "1. a"))
        { initialState with topic := String.toList "t" } =
      { initialState with
          topic := String.toList "t"
          ideas := [String.toList "a"]
          current_round := 2 } := by
  constructor
  · exact (regenerate_effects { initialState with topic := String.toList "t" } (some [])).1
      (by decide)
  · rw [(regenerate_effects { initialState with topic := String.toList "t" }
      (some (String.toList "1. a"))).2 (by decide)]
    decide

/-- Claim C5: for every topic and every oracle response, `generate_ideas`
returns at most 5 ideas (the parsed list is truncated to its first 5
items); in particular this holds for every non-empty topic. -/
theorem generate_ideas_length_le_five (topic : List Char)
    (liked removed : Finset (List Char)) (round_num : Nat)
    (resp : Option (List Char)) :
    (generate_ideas topic liked removed round_num resp).ideas.length ≤ 5 := by
  simp only [generate_ideas]
  repeat' split
  all_goals simp [List.length_take]

/-- Claim C6: for an empty or whitespace-only topic, `generate_ideas`
returns the empty sequence, issues the user-facing warning, raises no error
banner, and never reaches the service call — for every liked/removed set,
round number and oracle response. -/
theorem blank_topic_warns (topic : List Char) (liked removed : Finset (List Char))
    (round_num : Nat) (resp : Option (List Char)) (h : pyStrip topic = []) :
    generate_ideas topic liked removed round_num resp =
      { ideas := [], warned := true, errored := false, serviceCalled := false } := by
  unfold generate_ideas
  rw [if_pos h]

/-- Witness for C6 at the whitespace topic " ", round 7, with a raising
service oracle. -/
theorem blank_topic_warns_witness :
    generate_ideas (String.toList " ") ∅ ∅ 7 none =
      { ideas := [], warned := true, errored := false, serviceCalled := false } :=
  blank_topic_warns (String.toList " ") ∅ ∅ 7 none (by decide)

/-- The fixed mocked service response of the spec's parsing fixture. -/
def fixtureResponse : List Char :=
  String.toList "1. Build a widget\n2. Sell a gadget\nnot numbered\n3. Ship fast"

/-- Claim C7: on the fixed response "1. Build a widget\n2. Sell a
gadget\nnot numbered\n3. Ship fast" and any topic that is non-empty after
stripping, `generate_ideas` returns exactly ["Build a widget", "Sell a
gadget", "Ship fast"] — three items, the unnumbered line dropped, in
order. -/
theorem fixture_parse (topic : List Char) (liked removed : Finset (List Char))
    (round_num : Nat) (h : pyStrip topic ≠ []) :
    (generate_ideas topic liked removed round_num (some fixtureResponse)).ideas =
      [String.toList "Build a widget", String.toList "Sell a gadget",
        String.toList "Ship fast"] := by
  unfold generate_ideas
  rw [if_neg h]
  decide

/-- Witness for C7 at the concrete topic "t". -/
theorem fixture_parse_witness :
    (generate_ideas (String.toList "t") ∅ ∅ 1 (some fixtureResponse)).ideas =
      [String.toList "Build a widget", String.toList "Sell a gadget",
        String.toList "Ship fast"] :=
  fixture_parse (String.toList "t") ∅ ∅ 1 (by decide)

/-- Claim C8: `reset_session_state` maps every prior session state to the
fixed state (topic "", no ideas, empty liked and removed sets, round 1),
and is therefore idempotent: resetting twice equals resetting once. -/
theorem reset_state_and_idempotent (s : SessionState) :
    reset_session_state s =
      { topic := [], ideas := [], liked_ideas := ∅, removed_ideas := ∅,
        current_round := 1 } ∧
    reset_session_state (reset_session_state s) = reset_session_state s :=
  ⟨rfl, rfl⟩

/-- Claim C9: after liking idea text `x`, the remove-from-liked action for
`x` yields a state whose liked set no longer contains `x`, and that action
leaves the removed set, topic, ideas and round of the intermediate state
unchanged. -/
theorem like_then_unlike (s : SessionState) (x : List Char) :
    x ∉ (removeLikedHandler x (likeHandler x s)).liked_ideas ∧
    (removeLikedHandler x (likeHandler x s)).removed_ideas =
      (likeHandler x s).removed_ideas ∧
    (removeLikedHandler x (likeHandler x s)).topic = (likeHandler x s).topic ∧
    (removeLikedHandler x (likeHandler x s)).ideas = (likeHandler x s).ideas ∧
    (removeLikedHandler x (likeHandler x s)).current_round =
      (likeHandler x s).current_round := by
  refine ⟨?_, rfl, rfl, rfl, rfl⟩
  simp [removeLikedHandler, likeHandler]

/-- Claim C10: every idea string returned by `generate_ideas` is non-empty,
for every topic, feedback sets, round number and oracle response: blank
lines are dropped after stripping and the ". "-split can only produce an
empty tail from a line ending in ". ", which stripping rules out. -/
theorem generated_ideas_nonempty (topic : List Char)
    (liked removed : Finset (List Char)) (round_num : Nat)
    (resp : Option (List Char)) (idea : List Char)
    (h : idea ∈ (generate_ideas topic liked removed round_num resp).ideas) :
    idea ≠ [] := by
  simp only [generate_ideas] at h
  repeat' split at h
  all_goals simp only [List.not_mem_nil] at h
  exact mem_parseIdeas_ne_nil (List.take_subset _ _ h)

/-- Witness for C10: "Build a widget", returned on the fixture response, is
non-empty. -/
theorem generated_ideas_nonempty_witness : String.toList "Build a widget" ≠ [] :=
  generated_ideas_nonempty (String.toList "t") ∅ ∅ 1 (some fixtureResponse)
    (String.toList "Build a widget") (by decide)

end BrainstormBoard
